import Mathlib

/-!
Verification of the reward-economy and grid-placement logic of the funger
repository.  The definitions below are shallow embeddings of the TypeScript
components (Garden component, PlantUpgradePanel, TouchGrassTimer,
useGardenData hook, plantUtils) and of the SQL trigger functions
(update_cookie_streak, update_garden_stats_with_ornaments).  Strings are kept
as strings exactly as in the source; SQL integer columns are embedded as Int;
the uniform random draws consumed by the code are passed in as rational
arguments in the unit interval.
-/

/-! ## Catalog (src/utils/plantUtils.ts, src/hooks/useGardenData.ts) -/

/-- The five plant categories of the Garden component (PLANT_TYPES). -/
def PLANT_TYPES : List String := ["flower", "veggie", "fruit", "tree", "luck"]

/-- The four rarity tiers used throughout the source. -/
def PLANT_VARIANTS : List String := ["basic", "rare", "epic", "legendary"]

/-- PLANT_EMOJIS table from plantUtils.ts; a missing key is the JS undefined,
embedded as none. -/
def PLANT_EMOJIS (t v : String) : Option String :=
  if t = "flower" then
    if v = "basic" then some "🌼" else if v = "rare" then some "🌸"
    else if v = "epic" then some "🌺" else if v = "legendary" then some "🌹" else none
  else if t = "veggie" then
    if v = "basic" then some "🥕" else if v = "rare" then some "🥦"
    else if v = "epic" then some "🌽" else if v = "legendary" then some "🍆" else none
  else if t = "fruit" then
    if v = "basic" then some "🍎" else if v = "rare" then some "🍐"
    else if v = "epic" then some "🍓" else if v = "legendary" then some "🍑" else none
  else if t = "tree" then
    if v = "basic" then some "🌳" else if v = "rare" then some "🌲"
    else if v = "epic" then some "🌴" else if v = "legendary" then some "🎄" else none
  else if t = "luck" then
    if v = "basic" then some "🍀" else if v = "rare" then some "🍀"
    else if v = "epic" then some "🍀" else if v = "legendary" then some "🍀" else none
  else none

/-- PlantDetails record of plantUtils.ts. -/
structure PlantDetails where
  emoji : String
  name : String
  description : String
deriving DecidableEq

/-- PLANT_DETAILS table from plantUtils.ts; a missing key is none. -/
def PLANT_DETAILS (t v : String) : Option PlantDetails :=
  if t = "flower" then
    if v = "basic" then some ⟨"🌼", "Daisy", "A simple but beautiful daisy."⟩
    else if v = "rare" then some ⟨"🌸", "Cherry Blossom", "A delicate cherry blossom."⟩
    else if v = "epic" then some ⟨"🌺", "Hibiscus", "A vibrant tropical hibiscus."⟩
    else if v = "legendary" then some ⟨"🌹", "Rose", "A beautiful rose in full bloom."⟩
    else none
  else if t = "veggie" then
    if v = "basic" then some ⟨"🥕", "Carrot", "A crunchy carrot."⟩
    else if v = "rare" then some ⟨"🥦", "Broccoli", "A healthy broccoli."⟩
    else if v = "epic" then some ⟨"🌽", "Corn", "A sweet corn on the cob."⟩
    else if v = "legendary" then some ⟨"🍆", "Eggplant", "A ripe eggplant."⟩
    else none
  else if t = "fruit" then
    if v = "basic" then some ⟨"🍎", "Apple", "A juicy apple."⟩
    else if v = "rare" then some ⟨"🍐", "Pear", "A sweet pear."⟩
    else if v = "epic" then some ⟨"🍓", "Strawberry", "A ripe strawberry."⟩
    else if v = "legendary" then some ⟨"🍑", "Peach", "A fuzzy peach."⟩
    else none
  else if t = "tree" then
    if v = "basic" then some ⟨"🌳", "Oak Tree", "A sturdy oak tree."⟩
    else if v = "rare" then some ⟨"🌲", "Pine Tree", "A fragrant pine tree."⟩
    else if v = "epic" then some ⟨"🌴", "Palm Tree", "A tropical palm tree."⟩
    else if v = "legendary" then some ⟨"🎄", "Festive Tree", "A special festive tree."⟩
    else none
  else if t = "luck" then
    if v = "basic" then some ⟨"🍀", "Lucky Clover", "A lucky four-leaf clover."⟩
    else if v = "rare" then some ⟨"🍀", "Big Lucky Clover", "A bigger, luckier four-leaf clover."⟩
    else if v = "epic" then
      some ⟨"🍀", "Grand Lucky Clover", "An impressively large four-leaf clover radiating luck."⟩
    else if v = "legendary" then
      some ⟨"🍀", "Legendary Lucky Clover", "An enormous four-leaf clover with extraordinary luck powers."⟩
    else none
  else none

/-- getPlantEmoji from plantUtils.ts: empty strings are JS falsy and take the
early return; an unknown key falls back to the placeholder. -/
def getPlantEmoji (t v : String) : String :=
  if t = "" ∨ v = "" then "❓"
  else (PLANT_EMOJIS t v).getD "❓"

/-- getPlantDetails from plantUtils.ts. -/
def getPlantDetails (t v : String) : Option PlantDetails :=
  if t = "" ∨ v = "" then none
  else PLANT_DETAILS t v

/-- getUpgradeCost from plantUtils.ts: the flower cost of upgrading AWAY from
the given variant (legendary and every unknown string cost 0). -/
def getUpgradeCost (v : String) : Nat :=
  if v = "basic" then 5
  else if v = "rare" then 10
  else if v = "epic" then 15
  else 0

/-- getNextVariant from plantUtils.ts. -/
def getNextVariant (v : String) : Option String :=
  if v = "basic" then some "rare"
  else if v = "rare" then some "epic"
  else if v = "epic" then some "legendary"
  else none

/-- PLANT_COSTS from useGardenData.ts; every use site in the source reads it
with a zero fallback for unknown keys. -/
def PLANT_COSTS (t : String) : Int :=
  if t = "flower" then 0
  else if t = "veggie" then 5
  else if t = "fruit" then 10
  else if t = "tree" then 15
  else if t = "luck" then 20
  else 0

/-- The upgradeVariantCosts map of the Garden component (cost of directly
purchasing an upgraded variant), with the zero fallback of the JS lookup. -/
def upgradeVariantCost (v : String) : Int :=
  if v = "rare" then 5
  else if v = "epic" then 10
  else if v = "legendary" then 15
  else 0

/-! ## Garden data model (garden_items, garden_ornaments, user_garden_stats,
user_plant_inventory, user_ornament_inventory) -/

/-- A garden_items row.  Rows carry a unique id; the list order of the
embedding is the order in which rows were inserted (placement order). -/
structure GardenItem where
  id : String
  plant_type : String
  plant_variant : String
  position_x : Int
  position_y : Int
deriving DecidableEq

/-- A garden_ornaments row. -/
structure GardenOrnament where
  id : String
  ornament_type : String
  position_x : Int
  position_y : Int
deriving DecidableEq

/-- A user_garden_stats row (SQL integers, hence Int; the restore migration
can make flowers_available negative). -/
structure GardenStats where
  total_sessions_completed : Int
  total_flowers_earned : Int
  flowers_available : Int
deriving DecidableEq

/-- The durable per-user garden state seen by the Garden component: placed
items, placed ornaments, plant and ornament inventories, garden stats. -/
structure GState where
  items : List GardenItem
  ornaments : List GardenOrnament
  invPlants : String → String → Nat
  invOrnaments : String → Nat
  stats : GardenStats

/-- canAffordPlant from useGardenData.ts: flowers are always affordable,
other categories need flowers_available at or above the base cost. -/
def canAffordPlant (stats : GardenStats) (t : String) : Bool :=
  if t = "flower" then true
  else decide (PLANT_COSTS t ≤ stats.flowers_available)

/-- calculateInventoryBreakdown from the Garden component counts PLACED
items of a given type and variant (despite its name it reads gardenItems,
not the inventory table). -/
def breakdownCount (items : List GardenItem) (t v : String) : Nat :=
  (items.filter (fun i => i.plant_type == t && i.plant_variant == v)).length

/-- canPlaceSelectedPlant from the Garden component. -/
def canPlaceSelectedPlant (stats : GardenStats) (inv : String → String → Nat)
    (items : List GardenItem) (selType selVariant : String) : Bool :=
  let isDaisy := selType = "flower" ∧ selVariant = "basic"
  let placedCount :=
    (items.filter (fun i => i.plant_type == selType && i.plant_variant == selVariant)).length
  let inventoryCount := inv selType selVariant
  if isDaisy then
    decide ((placedCount : Int) < (inventoryCount : Int) + stats.flowers_available)
  else if 0 < inventoryCount then
    decide (placedCount < inventoryCount)
  else if selVariant = "basic" then
    canAffordPlant stats selType
  else if stats.flowers_available < upgradeVariantCost selVariant then
    false
  else if selType ≠ "flower" then
    if selVariant = "rare" then decide (0 < breakdownCount items selType "basic")
    else if selVariant = "epic" then decide (0 < breakdownCount items selType "rare")
    else decide (0 < breakdownCount items selType "epic")
  else true

/-- Outcome of handleStartPlacing in the Garden component.  Each rejection
constructor corresponds to one of the alert messages of the source. -/
inductive StartPlacingOutcome
  | proceed
  | rejectedNoDaisies
  | rejectedCannotPlace
  | rejectedInsufficientFunds
  | rejectedMissingPrerequisite
deriving DecidableEq

/-- handleStartPlacing from the Garden component: decides whether placing
mode is entered for the selected type and variant.  It performs no durable
writes; rejections only show an alert. -/
def handleStartPlacing (stats : GardenStats) (inv : String → String → Nat)
    (items : List GardenItem) (selType selVariant : String) : StartPlacingOutcome :=
  let isDaisy := selType = "flower" ∧ selVariant = "basic"
  let inventoryCount := inv selType selVariant
  if 0 < inventoryCount then .proceed
  else if canPlaceSelectedPlant stats inv items selType selVariant = false then
    if isDaisy then .rejectedNoDaisies else .rejectedCannotPlace
  else if selVariant = "basic" ∧ isDaisy ∧ stats.flowers_available ≤ 0 then
    .rejectedNoDaisies
  else if selVariant = "basic" ∧ ¬isDaisy ∧ canAffordPlant stats selType = false then
    .rejectedInsufficientFunds
  else if selVariant ≠ "basic" ∧ breakdownCount items selType selVariant = 0 then
    if stats.flowers_available < upgradeVariantCost selVariant then
      .rejectedInsufficientFunds
    else if selType ≠ "flower" ∧
        ¬(if selVariant = "rare" then 0 < breakdownCount items selType "basic"
          else if selVariant = "epic" then 0 < breakdownCount items selType "rare"
          else 0 < breakdownCount items selType "epic") then
      .rejectedMissingPrerequisite
    else .proceed
  else .proceed

/-! ## Selling (handleSellPlant in the Garden component) -/

/-- The sell value computed by handleSellPlant: base category cost (1 for a
flower) plus 5 for rare, 15 for epic and 30 for legendary variants. -/
def sellValue (plantType plantVariant : String) : Int :=
  (if plantType = "flower" then 1 else PLANT_COSTS plantType) +
    (if plantVariant = "rare" then 5
     else if plantVariant = "epic" then 15
     else if plantVariant = "legendary" then 30
     else 0)

/-- The sell value as worded by the specification sentence behind claim C1:
base category cost (1 for the currency category) plus a cumulative upgrade
cost of 0, 5, 20 and 50 for basic, rare, epic and legendary.  This definition
follows the words of the spec and exists only to be compared against the
source-derived sellValue. -/
def specSellValue (plantType plantVariant : String) : Int :=
  (if plantType = "flower" then 1 else PLANT_COSTS plantType) +
    (if plantVariant = "rare" then 5
     else if plantVariant = "epic" then 20
     else if plantVariant = "legendary" then 50
     else 0)

/-- handleSellPlant from the Garden component: deletes the garden_items row
with the given id and writes flowers_available plus the sell value.  There is
no failure branch (beyond store errors, out of scope). -/
def handleSellPlant (st : GState) (plantId plantType plantVariant : String) : GState :=
  { st with
      items := st.items.filter (fun i => i.id ≠ plantId),
      stats := { st.stats with
        flowers_available := st.stats.flowers_available + sellValue plantType plantVariant } }

/-! ## Upgrading (PlantUpgradePanel + handleUpgradePlant) -/

/-- The two reasons the upgrade panel refuses to invoke the upgrade. -/
inductive UpgradeError
  | atMaxLevel
  | insufficientFunds
deriving DecidableEq

/-- handleUpgradePlant from the Garden component: computes the next variant,
rewrites the plant_variant of the row with the given id in place, and writes
flowers_available minus the step cost (5 from basic, 10 from rare, otherwise
15).  A legendary plant has no next variant and nothing is written. -/
def handleUpgradePlant (st : GState) (plantId selVariant : String) : GState :=
  match getNextVariant selVariant with
  | none => st
  | some nv =>
    let upgradeCost : Int :=
      if selVariant = "basic" then 5 else if selVariant = "rare" then 10 else 15
    { st with
        items := st.items.map (fun i =>
          if i.id = plantId then { i with plant_variant := nv } else i),
        stats := { st.stats with
          flowers_available := st.stats.flowers_available - upgradeCost } }

/-- The full upgrade operation as reachable from the UI: PlantUpgradePanel
computes canUpgrade (a next variant exists and flowers_available covers
getUpgradeCost of the current variant) and only then invokes
handleUpgradePlant; otherwise the button is disabled and the panel shows the
max-level note or the not-enough-daisies note.  The pair returns the
resulting state (unchanged on refusal) and the refusal reason. -/
def upgradeFlow (st : GState) (p : GardenItem) : GState × Option UpgradeError :=
  match getNextVariant p.plant_variant with
  | none => (st, some .atMaxLevel)
  | some _ =>
    if st.stats.flowers_available < (getUpgradeCost p.plant_variant : Int) then
      (st, some .insufficientFunds)
    else
      (handleUpgradePlant st p.id p.plant_variant, none)

/-! ## Reconciliation (checkAndRemoveExcessFlowers in the Garden component) -/

/-- checkAndRemoveExcessFlowers: when more basic flowers are placed than
flowers_available, it deletes the FIRST excess-many basic flowers of the
fetched item list and touches no other table (in particular no currency is
credited back). -/
def checkAndRemoveExcessFlowers (st : GState) : GState :=
  let placedBasicFlowers :=
    st.items.filter (fun i => i.plant_type == "flower" && i.plant_variant == "basic")
  if st.stats.flowers_available < (placedBasicFlowers.length : Int) then
    let excessCount := ((placedBasicFlowers.length : Int) - st.stats.flowers_available).toNat
    let removedIds := (placedBasicFlowers.take excessCount).map GardenItem.id
    { st with items := st.items.filter (fun i => i.id ∉ removedIds) }
  else st

/-! ## Grid cell clicks (handleGridCellClick in the Garden component) -/

/-- What occupies a grid cell: the JS code builds a position map from the
item list and then the ornament list, so an ornament shadows a plant at the
same key and a later row shadows an earlier one. -/
inductive Occupant
  | plant (p : GardenItem)
  | ornament (o : GardenOrnament)
deriving DecidableEq

/-- The occupant lookup of handleGridCellClick. -/
def occupantAt (st : GState) (x y : Int) : Option Occupant :=
  match st.ornaments.reverse.find? (fun o => o.position_x == x && o.position_y == y) with
  | some o => some (.ornament o)
  | none =>
    (st.items.reverse.find? (fun i => i.position_x == x && i.position_y == y)).map .plant

/-- Pointwise increment of the plant inventory map. -/
def bumpInv (inv : String → String → Nat) (t v : String) : String → String → Nat :=
  fun a b => if a = t ∧ b = v then inv a b + 1 else inv a b

/-- Pointwise decrement of the plant inventory map (only reached behind a
positivity check in the source). -/
def dropInv (inv : String → String → Nat) (t v : String) : String → String → Nat :=
  fun a b => if a = t ∧ b = v then inv a b - 1 else inv a b

/-- The plant-insertion tail of handleGridCellClick.  origItems and snap are
the component state captured at entry (the JS closure reads the stale
gardenItems and gardenStats there), while st carries the writes already made
by the replacement branch. -/
def insertPlantPhase (st : GState) (origItems : List GardenItem) (snap : Int)
    (selType selVariant newId : String) (x y : Int) : GState :=
  let inventoryCount := st.invPlants selType selVariant
  let useFromInventory := 0 < inventoryCount
  let inv2 := if useFromInventory then dropInv st.invPlants selType selVariant else st.invPlants
  let items2 := st.items ++ [⟨newId, selType, selVariant, x, y⟩]
  let flowers2 :=
    if useFromInventory then st.stats.flowers_available
    else
      let hasVariant := 0 < breakdownCount origItems selType selVariant
      let cost : Int :=
        if selVariant = "basic" then
          (if selType = "flower" then 0 else PLANT_COSTS selType)
        else if ¬hasVariant then upgradeVariantCost selVariant
        else 0
      if 0 < cost then snap - cost else st.stats.flowers_available
  { st with items := items2, invPlants := inv2,
            stats := { st.stats with flowers_available := flowers2 } }

/-- The ornament-insertion tail of handleGridCellClick. -/
def insertOrnamentPhase (st : GState) (selOrnament newId : String) (x y : Int) : GState :=
  let st1 := { st with ornaments := st.ornaments ++ [⟨newId, selOrnament, x, y⟩] }
  if 0 < st.invOrnaments selOrnament then
    { st1 with invOrnaments := fun t =>
        if t = selOrnament then st.invOrnaments selOrnament - 1 else st.invOrnaments t }
  else st1

/-- handleGridCellClick from the Garden component.  placingPlant and
placingOrnament are the component mode flags, confirmReplace the answer to
the window.confirm dialog of the plant-replacement branch.  A cell occupied
by an ornament, or any occupied cell while placing an ornament, only shows
an alert and returns with nothing written. -/
def handleGridCellClick (st : GState) (placingPlant placingOrnament confirmReplace : Bool)
    (selType selVariant selOrnament newId : String) (x y : Int) : GState :=
  if ¬placingPlant ∧ ¬placingOrnament then st
  else
    let snap := st.stats.flowers_available
    match occupantAt st x y with
    | some (.ornament _) => st
    | some (.plant p) =>
      if placingPlant then
        if ¬confirmReplace then st
        else
          let st1 : GState :=
            { st with
                items := st.items.filter (fun i => i.id ≠ p.id),
                invPlants := bumpInv st.invPlants p.plant_type p.plant_variant,
                stats := { st.stats with
                  flowers_available :=
                    if p.plant_type = "flower" then snap + 1 else st.stats.flowers_available } }
          insertPlantPhase st1 st.items snap selType selVariant newId x y
      else st
    | none =>
      if placingPlant then insertPlantPhase st st.items snap selType selVariant newId x y
      else insertOrnamentPhase st selOrnament newId x y

/-! ## Grass sessions (TouchGrassTimer.tsx and the SQL trigger
update_garden_stats_with_ornaments of the migration chain) -/

/-- The reward_type values written to grass_sessions by the trigger. -/
inductive RewardType
  | flower
  | ornament_bonus
deriving DecidableEq

/-- Reads of a possibly missing user_garden_stats row, as the upsert sees
them (a missing row counts as zero before its first insert of ones). -/
def statsSessions (s : Option GardenStats) : Int :=
  (s.map GardenStats.total_sessions_completed).getD 0

/-- Currency earned so far of a possibly missing stats row. -/
def statsEarned (s : Option GardenStats) : Int :=
  (s.map GardenStats.total_flowers_earned).getD 0

/-- Currency available of a possibly missing stats row. -/
def statsAvailable (s : Option GardenStats) : Int :=
  (s.map GardenStats.flowers_available).getD 0

/-- update_garden_stats_with_ornaments from the migration chain: when the
updated session row is completed, upsert the stats row adding one to all
three counters (or insert ones), then draw random() and record the session
reward_type as ornament_bonus exactly when the draw is below 0.2, else
flower.  Returns the new stats row and the reward_type written. -/
def update_garden_stats_with_ornaments (newCompleted : Bool)
    (stats : Option GardenStats) (dbRandom : ℚ) : Option GardenStats × Option RewardType :=
  if newCompleted then
    let s : GardenStats :=
      match stats with
      | none => ⟨1, 1, 1⟩
      | some s0 =>
        ⟨s0.total_sessions_completed + 1, s0.total_flowers_earned + 1,
          s0.flowers_available + 1⟩
    (some s, some (if dbRandom < 1/5 then .ornament_bonus else .flower))
  else (stats, none)

/-- A grass_sessions row (the fields completeSession touches). -/
structure GrassSession where
  completed : Bool
  end_time : Option Int
  reward_type : Option RewardType
deriving DecidableEq

/-- The durable state touched by the timer completion flow: the session row,
the garden stats row (possibly absent), and the two placed-entity tables the
client scans for a free cell. -/
structure TState where
  session : GrassSession
  stats : Option GardenStats
  items : List GardenItem
  ornaments : List GardenOrnament
deriving DecidableEq

/-- The GARDEN_ORNAMENTS list of TouchGrassTimer.tsx. -/
def GARDEN_ORNAMENTS : List String :=
  ["flamingo", "rock", "gnome", "mushroom", "birdbath"]

/-- The first free cell of the 5 by 5 grid in the scan order of
TouchGrassTimer (y outer, x inner), against the fetched items and
ornaments. -/
def findFirstEmptyPos (items : List GardenItem) (ornaments : List GardenOrnament) :
    Option (Int × Int) :=
  (((List.range 5).flatMap fun y => (List.range 5).map fun x => ((x : Int), (y : Int))).find?
    fun p =>
      !(items.any (fun i => i.position_x == p.1 && i.position_y == p.2) ||
        ornaments.any (fun o => o.position_x == p.1 && o.position_y == p.2)))

/-- completeSession from TouchGrassTimer.tsx, composed with the database
trigger grass_session_completed_trigger (AFTER UPDATE, WHEN old.completed is
false and new.completed is true, executing
update_garden_stats_with_ornaments).  The client unconditionally writes
end_time and completed on the session row; the trigger fires only on the
false-to-true transition.  Afterwards the client draws its own random
(clientR): with the ornament feature enabled and clientR below 0.2 it picks
ornament ornIdx of GARDEN_ORNAMENTS and inserts it at the first free cell if
one exists.  dbR is the random() drawn inside the trigger. -/
def completeSession (st : TState) (t : Int) (dbR clientR : ℚ) (ornIdx : Nat)
    (featureEnabled : Bool) (newId : String) : TState :=
  let oldCompleted := st.session.completed
  let fired := oldCompleted = false
  let trig :=
    if fired then update_garden_stats_with_ornaments true st.stats dbR
    else (st.stats, st.session.reward_type)
  let session2 : GrassSession :=
    { completed := true, end_time := some t, reward_type := trig.2 }
  let isOrnament := featureEnabled ∧ clientR < 1/5
  let ornaments2 :=
    if isOrnament then
      match findFirstEmptyPos st.items st.ornaments with
      | some pos =>
        st.ornaments ++ [⟨newId, (GARDEN_ORNAMENTS.get? ornIdx).getD "flamingo", pos.1, pos.2⟩]
      | none => st.ornaments
    else st.ornaments
  { session := session2, stats := trig.1, items := st.items, ornaments := ornaments2 }

/-! ## Cookie rewards (update_cookie_streak of
20250311000000_cookie_rewards_system.sql) -/

/-- The 36 hour streak window of update_cookie_streak, in seconds. -/
def STREAK_GAP : Int := 36 * 3600

/-- A user_cookie_stats row (SQL integers; last_cookie_date is nullable). -/
structure CookieStats where
  total_cookies : Int
  current_streak : Int
  longest_streak : Int
  last_cookie_date : Option Int
deriving DecidableEq

/-- update_cookie_streak, the BEFORE INSERT trigger function on
cookie_rewards.  Given the stats row of the user (none when absent) and the
created_at of the inserted reward, it returns the upserted stats row and the
streak_count stamped on the inserted reward row. -/
def update_cookie_streak (prior : Option CookieStats) (created_at : Int) :
    CookieStats × Int :=
  match prior with
  | none => (⟨1, 1, 1, some created_at⟩, 1)
  | some s =>
    let cur : Int :=
      match s.last_cookie_date with
      | none => 1
      | some last => if STREAK_GAP < created_at - last then 1 else s.current_streak + 1
    let lng : Int := if s.longest_streak < cur then cur else s.longest_streak
    (⟨s.total_cookies + 1, cur, lng, some created_at⟩, cur)

/-- The stats row after inserting one cookie reward per element of ts, in
list order, starting from no stats row. -/
def processCookies (ts : List Int) : Option CookieStats :=
  ts.foldl (fun acc t => some (update_cookie_streak acc t).1) none

/-- current_streak after processing ts (zero for the empty log). -/
def csCurrent (ts : List Int) : Int :=
  ((processCookies ts).map CookieStats.current_streak).getD 0

/-- longest_streak after processing ts (zero for the empty log). -/
def csLongest (ts : List Int) : Int :=
  ((processCookies ts).map CookieStats.longest_streak).getD 0

/-- Length of the maximal run of small gaps at the recent end of the log:
the argument is the reward timestamps most recent first, and the result is
how many of them, counted from the front, are pairwise within STREAK_GAP of
their successor. -/
def suffixRun : List Int → Nat
  | [] => 0
  | [_] => 1
  | t :: u :: rest => if STREAK_GAP < t - u then 1 else suffixRun (u :: rest) + 1

/-- The spec-side property behind claim C4: the m most recent rewards (rev is
most recent first) all follow their predecessor within the 36 hour window.
A suffix of the chronological log of length m is such a run exactly when
this holds of the reversed log. -/
def recentRunOk (rev : List Int) (m : Nat) : Prop :=
  List.Chain' (fun a b => a - b ≤ STREAK_GAP) (rev.take m)

instance (rev : List Int) (m : Nat) : Decidable (recentRunOk rev m) := by
  unfold recentRunOk
  infer_instance

/-! ## Concrete demonstration data -/

/-- A placed epic veggie used in concrete evaluations. -/
def demoItem : GardenItem := ⟨"p1", "veggie", "epic", 0, 0⟩

/-- A garden with one placed epic veggie and no currency. -/
def demoState : GState :=
  { items := [demoItem], ornaments := [], invPlants := fun _ _ => 0,
    invOrnaments := fun _ => 0, stats := ⟨0, 0, 0⟩ }

/-- A garden with one placed epic veggie and 20 flowers. -/
def demoStateRich : GState :=
  { items := [demoItem], ornaments := [], invPlants := fun _ _ => 0,
    invOrnaments := fun _ => 0, stats := ⟨0, 0, 20⟩ }

/-- The earliest placed basic flower of the excess-removal demonstration. -/
def flowerA : GardenItem := ⟨"f1", "flower", "basic", 0, 0⟩

/-- The most recently placed basic flower of the excess-removal
demonstration. -/
def flowerB : GardenItem := ⟨"f2", "flower", "basic", 1, 0⟩

/-- Two placed basic flowers but only one available after a corrective stats
update. -/
def excessDemoState : GState :=
  { items := [flowerA, flowerB], ornaments := [], invPlants := fun _ _ => 0,
    invOrnaments := fun _ => 0, stats := ⟨5, 5, 1⟩ }

/-- A garden whose cell 0 0 holds an ornament. -/
def ornamentDemoState : GState :=
  { items := [], ornaments := [⟨"o1", "rock", 0, 0⟩], invPlants := fun _ _ => 0,
    invOrnaments := fun _ => 3, stats := ⟨0, 0, 0⟩ }

/-- A never-completed grass session with no stats row and an empty garden. -/
def freshTState : TState :=
  { session := ⟨false, none, none⟩, stats := none, items := [], ornaments := [] }

/-! ## Claim C10: totality of the catalog lookups -/

/-- C10 counterexample: the pair dragon, basic lies outside the five-category
four-tier catalog, yet getUpgradeCost of basic is 5, not 0, and
getNextVariant of basic is rare, not null, because both functions only look
at the variant string. -/
theorem catalog_pair_claim_false :
    ¬("dragon" ∈ PLANT_TYPES ∧ "basic" ∈ PLANT_VARIANTS) ∧
    getUpgradeCost "basic" ≠ 0 ∧ getNextVariant "basic" ≠ none := by
  refine ⟨by decide, by decide, by decide⟩

/-- C10 (amended): the catalog lookups are total over arbitrary strings; for
any pair with an unknown type or unknown variant, getPlantEmoji returns the
placeholder and getPlantDetails returns null, and for any variant outside
the four tiers getUpgradeCost returns 0 and getNextVariant returns null.
getUpgradeCost and getNextVariant ignore the type argument entirely, so a
known variant paired with an unknown type still yields its tier values. -/
theorem catalog_lookups_total (t v : String) :
    (t ∉ PLANT_TYPES ∨ v ∉ PLANT_VARIANTS →
      getPlantEmoji t v = "❓" ∧ getPlantDetails t v = none) ∧
    (v ∉ PLANT_VARIANTS → getUpgradeCost v = 0 ∧ getNextVariant v = none) := by
  constructor
  · intro h
    have hnone : PLANT_EMOJIS t v = none ∧ PLANT_DETAILS t v = none := by
      rcases h with h | h
      · simp only [PLANT_TYPES, List.mem_cons, List.not_mem_nil, or_false, not_or] at h
        obtain ⟨h1, h2, h3, h4, h5⟩ := h
        constructor
        · simp [PLANT_EMOJIS, h1, h2, h3, h4, h5]
        · simp [PLANT_DETAILS, h1, h2, h3, h4, h5]
      · simp only [PLANT_VARIANTS, List.mem_cons, List.not_mem_nil, or_false, not_or] at h
        obtain ⟨h1, h2, h3, h4⟩ := h
        constructor
        · simp [PLANT_EMOJIS, h1, h2, h3, h4]
        · simp [PLANT_DETAILS, h1, h2, h3, h4]
    constructor
    · unfold getPlantEmoji
      split
      · rfl
      · rw [hnone.1]; rfl
    · unfold getPlantDetails
      split
      · rfl
      · exact hnone.2
  · intro h
    simp only [PLANT_VARIANTS, List.mem_cons, List.not_mem_nil, or_false, not_or] at h
    obtain ⟨h1, h2, h3, h4⟩ := h
    exact ⟨by simp [getUpgradeCost, h1, h2, h3], by simp [getNextVariant, h1, h2, h3]⟩

/-- C10 witness: the amended totality at the concrete pair dragon, shiny. -/
theorem catalog_lookups_total_witness :
    getPlantEmoji "dragon" "shiny" = "❓" ∧ getPlantDetails "dragon" "shiny" = none ∧
    getUpgradeCost "shiny" = 0 ∧ getNextVariant "shiny" = none := by
  obtain ⟨h1, h2⟩ := catalog_lookups_total "dragon" "shiny"
  obtain ⟨a, b⟩ := h1 (by decide)
  obtain ⟨c, d⟩ := h2 (by decide)
  exact ⟨a, b, c, d⟩

/-! ## Claim C1: sell value -/

/-- C1 counterexample: selling the placed epic veggie credits base 5 plus 15
for the upgrades, that is 20 flowers, while the claim computes base 5 plus a
cumulative upgrade cost of 20, that is 25. -/
theorem sell_epic_credits_differ :
    (handleSellPlant demoState "p1" "veggie" "epic").stats.flowers_available = 20 ∧
    specSellValue "veggie" "epic" = 25 ∧
    (handleSellPlant demoState "p1" "veggie" "epic").stats.flowers_available ≠
      specSellValue "veggie" "epic" := by
  refine ⟨by decide, by decide, by decide⟩

/-- C1 (amended): selling a placed item removes it from the grid, keeps every
other row, and credits the base category cost (1 for the currency category)
plus the cumulative upgrade cost to reach its tier, which is 0, 5, 15 and 30
for basic, rare, epic and legendary; the operation has no failure branch once
invoked on an owned placed item. -/
theorem handleSellPlant_spec (st : GState) (i : GardenItem) (_hmem : i ∈ st.items) :
    i ∉ (handleSellPlant st i.id i.plant_type i.plant_variant).items ∧
    (∀ j ∈ st.items, j.id ≠ i.id →
      j ∈ (handleSellPlant st i.id i.plant_type i.plant_variant).items) ∧
    (handleSellPlant st i.id i.plant_type i.plant_variant).stats.flowers_available =
      st.stats.flowers_available +
        ((if i.plant_type = "flower" then 1 else PLANT_COSTS i.plant_type) +
          (if i.plant_variant = "rare" then 5
           else if i.plant_variant = "epic" then 15
           else if i.plant_variant = "legendary" then 30
           else 0)) := by
  refine ⟨?_, ?_, rfl⟩
  · simp [handleSellPlant]
  · intro j hj hne
    simp [handleSellPlant, List.mem_filter, hj, hne]

/-- C1 witness: the amended sale at the concrete garden demoState. -/
theorem handleSellPlant_spec_witness :
    demoItem ∉ (handleSellPlant demoState "p1" "veggie" "epic").items ∧
    (handleSellPlant demoState "p1" "veggie" "epic").stats.flowers_available = 0 + (5 + 15) := by
  have h := handleSellPlant_spec demoState demoItem (by decide)
  exact ⟨h.1, h.2.2⟩

/-! ## Claim C5: upgrades -/

/-- C5: the upgrade flow refuses a plant with no next variant (legendary),
refuses with insufficientFunds and debits nothing when flowers_available is
below the step cost of the current variant, and otherwise debits exactly
that step cost (5 from basic, 10 from rare, 15 from epic) while rewriting
only the plant_variant of the selected row, so id and grid position are
unchanged.  The final conjunct pins the step-cost table itself. -/
theorem upgradeFlow_spec (st : GState) (p : GardenItem) :
    (getNextVariant p.plant_variant = none → upgradeFlow st p = (st, some .atMaxLevel)) ∧
    (∀ nv, getNextVariant p.plant_variant = some nv →
      st.stats.flowers_available < (getUpgradeCost p.plant_variant : Int) →
      upgradeFlow st p = (st, some .insufficientFunds)) ∧
    (∀ nv, getNextVariant p.plant_variant = some nv →
      (getUpgradeCost p.plant_variant : Int) ≤ st.stats.flowers_available →
      (upgradeFlow st p).2 = none ∧
      (upgradeFlow st p).1.stats.flowers_available =
        st.stats.flowers_available - getUpgradeCost p.plant_variant ∧
      (∀ j ∈ st.items, j.id ≠ p.id → j ∈ (upgradeFlow st p).1.items) ∧
      (∀ j ∈ st.items, j.id = p.id →
        ({ j with plant_variant := nv } : GardenItem) ∈ (upgradeFlow st p).1.items)) ∧
    (getUpgradeCost "basic" = 5 ∧ getUpgradeCost "rare" = 10 ∧ getUpgradeCost "epic" = 15 ∧
      getNextVariant "legendary" = none) := by
  refine ⟨?_, ?_, ?_, by decide, by decide, by decide, by decide⟩
  · intro h
    simp [upgradeFlow, h]
  · intro nv h hlt
    simp [upgradeFlow, h, hlt]
  · intro nv h hle
    have hnotlt : ¬st.stats.flowers_available < (getUpgradeCost p.plant_variant : Int) := by
      omega
    have hcost :
        (if p.plant_variant = "basic" then (5 : Int)
         else if p.plant_variant = "rare" then 10 else 15) =
          (getUpgradeCost p.plant_variant : Int) := by
      unfold getNextVariant at h
      unfold getUpgradeCost
      split_ifs at h ⊢ <;> simp_all
    have hitems : (upgradeFlow st p).1.items =
        st.items.map (fun i => if i.id = p.id then { i with plant_variant := nv } else i) := by
      simp [upgradeFlow, h, hnotlt, handleUpgradePlant]
    refine ⟨?_, ?_, ?_, ?_⟩
    · simp [upgradeFlow, h, hnotlt]
    · simp [upgradeFlow, h, hnotlt, handleUpgradePlant, hcost]
    · intro j hj hne
      rw [hitems, List.mem_map]
      exact ⟨j, hj, by simp [hne]⟩
    · intro j hj hid
      rw [hitems, List.mem_map]
      exact ⟨j, hj, by simp [hid]⟩

/-- C5 witness: upgrading the placed epic veggie with 20 flowers succeeds,
debits 15 and leaves the row in place with variant legendary. -/
theorem upgradeFlow_spec_witness :
    (upgradeFlow demoStateRich demoItem).2 = none ∧
    (upgradeFlow demoStateRich demoItem).1.stats.flowers_available =
      demoStateRich.stats.flowers_available - getUpgradeCost demoItem.plant_variant ∧
    ({ demoItem with plant_variant := "legendary" } : GardenItem) ∈
      (upgradeFlow demoStateRich demoItem).1.items := by
  have h := ((upgradeFlow_spec demoStateRich demoItem).2.2.1 "legendary" (by decide) (by decide))
  exact ⟨h.1, h.2.1, h.2.2.2 demoItem (by decide) rfl⟩

/-! ## Claim C2: grass completion reward -/

/-- C2: on a session transitioning to completed, the trigger function adds
exactly one to total_sessions_completed, total_flowers_earned and
flowers_available whatever the random draw, and records the ornament bonus
exactly when the draw is below one fifth, so the bonus never replaces the
currency grant; a reward_type is always recorded. -/
theorem grass_reward_spec (stats : Option GardenStats) (r : ℚ) :
    statsSessions (update_garden_stats_with_ornaments true stats r).1 =
      statsSessions stats + 1 ∧
    statsEarned (update_garden_stats_with_ornaments true stats r).1 =
      statsEarned stats + 1 ∧
    statsAvailable (update_garden_stats_with_ornaments true stats r).1 =
      statsAvailable stats + 1 ∧
    ((update_garden_stats_with_ornaments true stats r).2 = some .ornament_bonus ↔ r < 1/5) ∧
    (update_garden_stats_with_ornaments true stats r).2 ≠ none := by
  cases stats with
  | none =>
    refine ⟨rfl, rfl, rfl, by simp [update_garden_stats_with_ornaments],
      by simp [update_garden_stats_with_ornaments]⟩
  | some s =>
    refine ⟨rfl, rfl, rfl, by simp [update_garden_stats_with_ornaments],
      by simp [update_garden_stats_with_ornaments]⟩

/-! ## Claim C9: cookie reward insertion -/

/-- C9: a cookie insert through update_cookie_streak preserves the invariant
that the current streak is at least one and bounded by the longest streak,
adds exactly one to total_cookies (a missing row counting as zero), stamps
last_cookie_date with the created_at of the new reward, and stamps the
inserted row with the updated current streak. -/
theorem cookie_insert_spec (prior : Option CookieStats) (t : Int)
    (hinv : ∀ s, prior = some s → 1 ≤ s.current_streak ∧ s.current_streak ≤ s.longest_streak) :
    1 ≤ (update_cookie_streak prior t).1.current_streak ∧
    (update_cookie_streak prior t).1.current_streak ≤
      (update_cookie_streak prior t).1.longest_streak ∧
    (update_cookie_streak prior t).1.total_cookies =
      (prior.map CookieStats.total_cookies).getD 0 + 1 ∧
    (update_cookie_streak prior t).1.last_cookie_date = some t ∧
    (update_cookie_streak prior t).2 = (update_cookie_streak prior t).1.current_streak := by
  cases prior with
  | none =>
    refine ⟨by simp [update_cookie_streak], by simp [update_cookie_streak],
      by simp [update_cookie_streak], rfl, rfl⟩
  | some s =>
    have h := hinv s rfl
    have hcur : 1 ≤ (update_cookie_streak (some s) t).1.current_streak := by
      simp only [update_cookie_streak]
      cases hls : s.last_cookie_date with
      | none => norm_num
      | some last =>
        by_cases hg : STREAK_GAP < t - last
        · simp [hg]
        · simp only [hg, if_false]
          omega
    have hlng : (update_cookie_streak (some s) t).1.current_streak ≤
        (update_cookie_streak (some s) t).1.longest_streak := by
      simp only [update_cookie_streak]
      split_ifs <;> omega
    exact ⟨hcur, hlng, rfl, rfl, rfl⟩

/-- C9 witness: inserting a reward at time 100 over a stats row with streak
2 of longest 2 and last reward at time 0. -/
theorem cookie_insert_spec_witness :
    1 ≤ (update_cookie_streak (some ⟨3, 2, 2, some 0⟩) 100).1.current_streak ∧
    (update_cookie_streak (some ⟨3, 2, 2, some 0⟩) 100).1.total_cookies = 3 + 1 ∧
    (update_cookie_streak (some ⟨3, 2, 2, some 0⟩) 100).1.last_cookie_date = some 100 := by
  have h := cookie_insert_spec (some ⟨3, 2, 2, some 0⟩) 100
    (by intro s hs; simp at hs; rw [← hs]; exact ⟨by norm_num, by norm_num⟩)
  exact ⟨h.1, h.2.2.1, h.2.2.2.1⟩

/-! ## Claim C7: prerequisite gating -/

/-- C7: for any non-currency category, trying to enter placing mode for an
upgraded tier while owning zero units of the prerequisite tier (inventory
plus grid combined) and none of the target tier is rejected, whatever the
currency balance; the flower (currency) category is exempt and proceeds on
currency alone. -/
theorem prerequisite_gating :
    (∀ (stats : GardenStats) (inv : String → String → Nat) (items : List GardenItem)
        (selType selVariant pv : String),
      selType ≠ "flower" →
      ((selVariant = "rare" ∧ pv = "basic") ∨ (selVariant = "epic" ∧ pv = "rare") ∨
        (selVariant = "legendary" ∧ pv = "epic")) →
      inv selType pv = 0 → breakdownCount items selType pv = 0 →
      inv selType selVariant = 0 →
      handleStartPlacing stats inv items selType selVariant ≠ .proceed) ∧
    (∀ (stats : GardenStats) (inv : String → String → Nat) (items : List GardenItem),
      inv "flower" "rare" = 0 → 5 ≤ stats.flowers_available →
      handleStartPlacing stats inv items "flower" "rare" = .proceed) := by
  constructor
  · intro stats inv items selType selVariant pv hflower hdisj hinvp hplaced hinvsel
    have hcant : canPlaceSelectedPlant stats inv items selType selVariant = false := by
      rcases hdisj with ⟨hv, hp⟩ | ⟨hv, hp⟩ | ⟨hv, hp⟩ <;> subst hv <;> subst hp <;>
        simp [canPlaceSelectedPlant, hflower, hinvsel, hplaced]
    have hnd : ¬(selType = "flower" ∧ selVariant = "basic") := fun hc => hflower hc.1
    rcases hdisj with ⟨hv, _⟩ | ⟨hv, _⟩ | ⟨hv, _⟩ <;> subst hv <;>
      simp [handleStartPlacing, hinvsel, hcant, hnd, hflower]
  · intro stats inv items hinv hfunds
    have hnotlt : ¬stats.flowers_available < upgradeVariantCost "rare" := by
      simp only [upgradeVariantCost]
      norm_num
      omega
    have hcan : canPlaceSelectedPlant stats inv items "flower" "rare" = true := by
      simp [canPlaceSelectedPlant, hinv, hnotlt]
    by_cases hb : breakdownCount items "flower" "rare" = 0
    · simp [handleStartPlacing, hinv, hcan, hb, hnotlt]
    · simp [handleStartPlacing, hinv, hcan, hb]

/-- C7 witness: with an empty garden and inventory, a rare veggie is refused
even with 100 flowers, while a rare flower proceeds. -/
theorem prerequisite_gating_witness :
    handleStartPlacing ⟨0, 0, 100⟩ (fun _ _ => 0) [] "veggie" "rare" ≠ .proceed ∧
    handleStartPlacing ⟨0, 0, 100⟩ (fun _ _ => 0) [] "flower" "rare" = .proceed := by
  constructor
  · exact prerequisite_gating.1 ⟨0, 0, 100⟩ (fun _ _ => 0) [] "veggie" "rare" "basic"
      (by decide) (Or.inl ⟨rfl, rfl⟩) rfl rfl rfl
  · exact prerequisite_gating.2 ⟨0, 0, 100⟩ (fun _ _ => 0) [] rfl (by norm_num)

/-! ## Claim C8: grid replacement rules -/

/-- C8 counterexample: with an ornament at cell 0 0 and three gnome ornaments
in inventory, clicking that cell in ornament-placing mode changes nothing,
so an ornament cannot replace another ornament as the claim asserts. -/
theorem ornament_cannot_replace_ornament :
    handleGridCellClick ornamentDemoState false true true "" "" "gnome" "o2" 0 0 =
      ornamentDemoState ∧
    (handleGridCellClick ornamentDemoState false true true "" "" "gnome" "o2" 0 0).ornaments =
      [⟨"o1", "rock", 0, 0⟩] := by
  exact ⟨rfl, rfl⟩

/-- C8 (amended): a plant placement targeting an ornament-occupied cell is
rejected with nothing written, for either value of the confirmation flag;
an ornament placement is rejected on ANY occupied cell, whether the occupant
is a plant or an ornament, so ornaments may only be placed on empty cells. -/
theorem grid_replacement_rules (st : GState) (x y : Int)
    (conf : Bool) (selType selVariant selOrnament newId : String) :
    (∀ o, occupantAt st x y = some (.ornament o) →
      handleGridCellClick st true false conf selType selVariant selOrnament newId x y = st) ∧
    (∀ occ, occupantAt st x y = some occ →
      handleGridCellClick st false true conf selType selVariant selOrnament newId x y = st) := by
  constructor
  · intro o ho
    simp [handleGridCellClick, ho]
  · intro occ ho
    cases occ with
    | plant p => simp [handleGridCellClick, ho]
    | ornament o => simp [handleGridCellClick, ho]

/-- C8 witness: a plant placement onto the ornament-occupied cell of the
demonstration garden returns the state unchanged. -/
theorem grid_replacement_rules_witness :
    handleGridCellClick ornamentDemoState true false true "veggie" "basic" "" "p9" 0 0 =
      ornamentDemoState :=
  (grid_replacement_rules ornamentDemoState 0 0 true "veggie" "basic" "" "p9").1
    ⟨"o1", "rock", 0, 0⟩ (by decide)

/-! ## Claim C6: reclaiming excess placed flowers -/

/-- Deleting, from a list with distinct keys, exactly the rows whose key
appears among the first n keys leaves the drop of the list. -/
theorem filter_key_not_in_take {α β : Type} [DecidableEq β] (f : α → β) :
    ∀ (l : List α) (n : Nat), (l.map f).Nodup →
      l.filter (fun x => decide (f x ∉ (l.take n).map f)) = l.drop n := by
  intro l
  induction l with
  | nil => intro n _; simp
  | cons x xs ih =>
    intro n hnd
    simp only [List.map_cons, List.nodup_cons] at hnd
    cases n with
    | zero => simp
    | succ m =>
      simp only [List.take_succ_cons, List.map_cons, List.drop_succ_cons]
      rw [List.filter_cons]
      have hxf : (decide (f x ∉ f x :: (xs.take m).map f)) = false := by simp
      rw [hxf]
      simp only [Bool.false_eq_true, if_false]
      have hcongr : xs.filter (fun a => decide (f a ∉ f x :: (xs.take m).map f)) =
          xs.filter (fun a => decide (f a ∉ (xs.take m).map f)) := by
        apply List.filter_congr
        intro a ha
        have hne : f a ≠ f x := by
          intro he
          exact hnd.1 (he ▸ List.mem_map_of_mem f ha)
        simp [hne]
      rw [hcongr, ih m hnd.2]

/-- C6 counterexample: two basic flowers are placed, in placement order
flowerA then flowerB, and only one is available.  The code removes the
EARLIEST placed flowerA and keeps the most recently placed flowerB, while
the claim requires removing the most recently placed one. -/
theorem excess_removal_takes_earliest :
    (checkAndRemoveExcessFlowers excessDemoState).items = [flowerB] ∧
    flowerB ∈ (checkAndRemoveExcessFlowers excessDemoState).items ∧
    flowerA ∉ (checkAndRemoveExcessFlowers excessDemoState).items := by
  refine ⟨by decide, by decide, by decide⟩

/-- C6 (amended): whenever flowers_available falls below the number of
placed basic currency items, the check removes the EARLIEST-fetched such
items, exactly the first excess-many of the fetched list, so the most
recently placed ones survive, until the placed count no longer exceeds the
available currency (to zero if the stats value is negative); stats,
ornaments and inventories are untouched, so nothing is credited back, and
every placed item that is not a basic flower survives. -/
theorem checkAndRemoveExcessFlowers_spec (st : GState)
    (hid : (st.items.map GardenItem.id).Nodup) :
    (checkAndRemoveExcessFlowers st).stats = st.stats ∧
    (checkAndRemoveExcessFlowers st).ornaments = st.ornaments ∧
    (∀ i ∈ st.items, ¬(i.plant_type = "flower" ∧ i.plant_variant = "basic") →
      i ∈ (checkAndRemoveExcessFlowers st).items) ∧
    (checkAndRemoveExcessFlowers st).items.filter
        (fun i => i.plant_type == "flower" && i.plant_variant == "basic") =
      (st.items.filter (fun i => i.plant_type == "flower" && i.plant_variant == "basic")).drop
        (((st.items.filter
            (fun i => i.plant_type == "flower" && i.plant_variant == "basic")).length : Int)
          - st.stats.flowers_available).toNat ∧
    ((checkAndRemoveExcessFlowers st).items.filter
        (fun i => i.plant_type == "flower" && i.plant_variant == "basic")).length =
      min (st.items.filter
          (fun i => i.plant_type == "flower" && i.plant_variant == "basic")).length
        st.stats.flowers_available.toNat := by
  simp only [checkAndRemoveExcessFlowers]
  split
  case isTrue hlt =>
    have hpbnd :
        ((st.items.filter
          (fun i => i.plant_type == "flower" && i.plant_variant == "basic")).map
            GardenItem.id).Nodup :=
      (List.Sublist.map GardenItem.id (List.filter_sublist st.items)).nodup hid
    have hfilter := filter_key_not_in_take GardenItem.id
      (st.items.filter (fun i => i.plant_type == "flower" && i.plant_variant == "basic"))
      (((st.items.filter
          (fun i => i.plant_type == "flower" && i.plant_variant == "basic")).length : Int)
        - st.stats.flowers_available).toNat hpbnd
    refine ⟨rfl, rfl, ?_, ?_, ?_⟩
    · intro i hi hnb
      simp only [List.mem_filter]
      refine ⟨hi, ?_⟩
      simp only [decide_eq_true_eq, List.mem_map]
      rintro ⟨j, hj, hje⟩
      have hjmem : j ∈ st.items := List.mem_of_mem_filter (List.mem_of_mem_take hj)
      have hjeqi : j = i := List.inj_on_of_nodup_map hid hjmem hi hje
      have hjb := List.of_mem_filter (List.mem_of_mem_take hj)
      rw [hjeqi] at hjb
      simp only [Bool.and_eq_true, beq_iff_eq] at hjb
      exact hnb hjb
    · rw [List.filter_comm]
      exact hfilter
    · rw [List.filter_comm, hfilter, List.length_drop]
      omega
  case isFalse hlt =>
    have hzero :
        (((st.items.filter
            (fun i => i.plant_type == "flower" && i.plant_variant == "basic")).length : Int)
          - st.stats.flowers_available).toNat = 0 := by omega
    rw [hzero]
    refine ⟨rfl, rfl, fun i hi _ => hi, by rw [List.drop_zero], ?_⟩
    omega

/-- C6 witness: the amended removal at the two-flower demonstration garden:
stats keep their value (nothing credited) and exactly one basic flower
remains placed. -/
theorem checkAndRemoveExcessFlowers_spec_witness :
    (checkAndRemoveExcessFlowers excessDemoState).stats = excessDemoState.stats ∧
    ((checkAndRemoveExcessFlowers excessDemoState).items.filter
        (fun i => i.plant_type == "flower" && i.plant_variant == "basic")).length =
      min (excessDemoState.items.filter
          (fun i => i.plant_type == "flower" && i.plant_variant == "basic")).length
        excessDemoState.stats.flowers_available.toNat := by
  have h := checkAndRemoveExcessFlowers_spec excessDemoState (by decide)
  exact ⟨h.1, h.2.2.2.2⟩

/-! ## Claim C3: idempotency of completeSession -/

/-- C3 counterexample: completing the same fresh session twice (both times
with a client bonus draw below 0.2 and the ornament feature enabled) leaves
a different state after the second call: the second call rewrites end_time
and inserts a second bonus ornament, so it is not free of further writes and
two reward ornaments result from one session.  Only the stats increment is
applied once. -/
theorem completeSession_not_idempotent :
    completeSession (completeSession freshTState 100 0 0 0 true "o1") 200 0 0 0 true "o2" ≠
      completeSession freshTState 100 0 0 0 true "o1" ∧
    (completeSession (completeSession freshTState 100 0 0 0 true "o1")
        200 0 0 0 true "o2").ornaments.length = 2 ∧
    (completeSession freshTState 100 0 0 0 true "o1").ornaments.length = 1 := by
  have h5 : ((0 : ℚ) < 1/5) := by norm_num
  have hp1 : findFirstEmptyPos ([] : List GardenItem) ([] : List GardenOrnament) =
      some (0, 0) := by decide
  have hp2 : findFirstEmptyPos ([] : List GardenItem) [⟨"o1", "flamingo", 0, 0⟩] =
      some (1, 0) := by decide
  have e1 : completeSession freshTState 100 0 0 0 true "o1" =
      { session := ⟨true, some 100, some .ornament_bonus⟩,
        stats := some ⟨1, 1, 1⟩, items := [],
        ornaments := [⟨"o1", "flamingo", 0, 0⟩] } := by
    simp [completeSession, freshTState, update_garden_stats_with_ornaments, h5, hp1,
      GARDEN_ORNAMENTS]
  have e2 : completeSession
      ({ session := ⟨true, some 100, some .ornament_bonus⟩,
         stats := some ⟨1, 1, 1⟩, items := [],
         ornaments := [⟨"o1", "flamingo", 0, 0⟩] } : TState) 200 0 0 0 true "o2" =
      { session := ⟨true, some 200, some .ornament_bonus⟩,
        stats := some ⟨1, 1, 1⟩, items := [],
        ornaments := [⟨"o1", "flamingo", 0, 0⟩, ⟨"o2", "flamingo", 1, 0⟩] } := by
    simp [completeSession, update_garden_stats_with_ornaments, h5, hp2,
      GARDEN_ORNAMENTS]
  rw [e1, e2]
  refine ⟨by decide, by decide, by decide⟩

/-- C3 (amended): completeSession does not consult the completed flag before
writing: a repeated call rewrites end_time and repeats the independent
client-side bonus ornament draw.  However the stats upsert is guarded by the
trigger condition old.completed false and new.completed true, so a second
call never changes the stats row again, and a first call on an uncompleted
session adds exactly one session and one currency unit. -/
theorem completeSession_stats_once (st : TState) (t1 t2 : Int) (a b c d : ℚ)
    (i j : Nat) (f1 f2 : Bool) (n1 n2 : String)
    (h : st.session.completed = false) :
    (completeSession (completeSession st t1 a b i f1 n1) t2 c d j f2 n2).stats =
      (completeSession st t1 a b i f1 n1).stats ∧
    statsAvailable (completeSession st t1 a b i f1 n1).stats =
      statsAvailable st.stats + 1 ∧
    statsSessions (completeSession st t1 a b i f1 n1).stats =
      statsSessions st.stats + 1 ∧
    statsEarned (completeSession st t1 a b i f1 n1).stats =
      statsEarned st.stats + 1 := by
  refine ⟨?_, ?_, ?_, ?_⟩
  · simp [completeSession]
  all_goals
    cases hs : st.stats <;>
      simp [completeSession, h, hs, update_garden_stats_with_ornaments,
        statsAvailable, statsSessions, statsEarned]

/-- C3 witness: the guarded stats increment at the fresh demonstration
session. -/
theorem completeSession_stats_once_witness :
    (completeSession (completeSession freshTState 100 0 0 0 true "o1")
        200 0 0 0 true "o2").stats =
      (completeSession freshTState 100 0 0 0 true "o1").stats ∧
    statsAvailable (completeSession freshTState 100 0 0 0 true "o1").stats =
      statsAvailable freshTState.stats + 1 := by
  have h := completeSession_stats_once freshTState 100 200 0 0 0 0 0 0 true true "o1" "o2" rfl
  exact ⟨h.1, h.2.1⟩

/-! ## Claim C4: streak correctness over a log of reward timestamps -/

/-- Appending one reward to the log steps the stats fold once. -/
theorem processCookies_concat (l : List Int) (t : Int) :
    processCookies (l ++ [t]) = some (update_cookie_streak (processCookies l) t).1 := by
  simp [processCookies, List.foldl_append]

/-- Every step stamps last_cookie_date with the created_at just processed. -/
theorem processCookies_concat_last (l : List Int) (t : Int) :
    (update_cookie_streak (processCookies l) t).1.last_cookie_date = some t := by
  cases processCookies l <;> simp [update_cookie_streak]

/-- The streak stored by the fold equals the greedy run length read off the
reversed log. -/
theorem csCurrent_eq_suffixRun (l : List Int) :
    csCurrent l = (suffixRun l.reverse : Int) := by
  induction l using List.reverseRecOn with
  | nil => rfl
  | append_singleton l t ih =>
    rcases hl : l.reverse with _ | ⟨u, rev⟩
    · have hl0 : l = [] := by simpa using congrArg List.reverse hl
      subst hl0
      simp [csCurrent, processCookies, update_cookie_streak, suffixRun]
    · have hl2 : l = rev.reverse ++ [u] := by
        have h2 := congrArg List.reverse hl
        simpa using h2
      have hs0 : processCookies l =
          some (update_cookie_streak (processCookies rev.reverse) u).1 := by
        rw [hl2, processCookies_concat]
      have hlastu := processCookies_concat_last rev.reverse u
      have hrev : (l ++ [t]).reverse = t :: u :: rev := by
        rw [List.reverse_append, hl]
        rfl
      have hcur : csCurrent (l ++ [t]) =
          if STREAK_GAP < t - u then 1 else csCurrent l + 1 := by
        unfold csCurrent
        rw [processCookies_concat, hs0]
        generalize hgen : (update_cookie_streak (processCookies rev.reverse) u).1 = s0 at hlastu ⊢
        simp only [update_cookie_streak, hlastu, Option.map_some', Option.getD_some]
      rw [hcur, hrev]
      by_cases hgap : STREAK_GAP < t - u
      · simp [suffixRun, hgap]
      · simp only [suffixRun, hgap, if_false]
        rw [ih, hl]
        push_cast
        ring

/-- The stored longest streak steps by a maximum with the new current
streak. -/
theorem csLongest_concat (l : List Int) (t : Int) :
    csLongest (l ++ [t]) = max (csLongest l) (csCurrent (l ++ [t])) := by
  unfold csLongest csCurrent
  rw [processCookies_concat]
  cases hp : processCookies l with
  | none =>
    simp only [update_cookie_streak, Option.map_some', Option.map_none', Option.getD_some,
      Option.getD_none]
    omega
  | some s =>
    simp only [update_cookie_streak, Option.map_some', Option.getD_some]
    split_ifs <;> omega

/-- A nonempty reversed log has a run of length at least one. -/
theorem suffixRun_pos (rev : List Int) (h : rev ≠ []) : 1 ≤ suffixRun rev := by
  cases rev with
  | nil => exact absurd rfl h
  | cons t rest =>
    cases rest with
    | nil => simp [suffixRun]
    | cons u rest2 =>
      rw [suffixRun]
      split_ifs <;> omega

/-- The run never exceeds the log length. -/
theorem suffixRun_le_length (rev : List Int) : suffixRun rev ≤ rev.length := by
  induction rev with
  | nil => simp [suffixRun]
  | cons t rest ih =>
    cases rest with
    | nil => simp [suffixRun]
    | cons u rest2 =>
      rw [suffixRun]
      split_ifs with h
      · simp
      · simpa [Nat.succ_le_succ_iff] using ih

/-- The greedy run is itself a run: its most recent elements all follow
their predecessor within the window. -/
theorem suffixRun_ok (rev : List Int) : recentRunOk rev (suffixRun rev) := by
  induction rev with
  | nil => simp [recentRunOk, suffixRun]
  | cons t rest ih =>
    cases rest with
    | nil => simp [recentRunOk, suffixRun]
    | cons u rest2 =>
      rw [suffixRun]
      split_ifs with h
      · simp [recentRunOk]
      · have hpos : 1 ≤ suffixRun (u :: rest2) := suffixRun_pos _ (by simp)
        obtain ⟨s, hs⟩ : ∃ s, suffixRun (u :: rest2) = s + 1 :=
          ⟨suffixRun (u :: rest2) - 1, by omega⟩
        unfold recentRunOk at ih ⊢
        rw [hs] at ih ⊢
        rw [List.take_succ_cons, List.take_succ_cons]
        rw [List.take_succ_cons] at ih
        exact List.chain'_cons.mpr ⟨by omega, ih⟩

/-- Maximality of the greedy run: any run of recent small gaps is at most
the greedy run length. -/
theorem le_suffixRun_of_ok (rev : List Int) :
    ∀ m : Nat, m ≤ rev.length → recentRunOk rev m → m ≤ suffixRun rev := by
  induction rev with
  | nil =>
    intro m hm _
    simp only [List.length_nil, Nat.le_zero] at hm
    simp [suffixRun, hm]
  | cons t rest ih =>
    intro m hm hok
    cases rest with
    | nil =>
      simp only [List.length_singleton] at hm
      simpa [suffixRun] using hm
    | cons u rest2 =>
      rw [suffixRun]
      split_ifs with h
      · match m with
        | 0 => omega
        | 1 => omega
        | m' + 2 =>
          exfalso
          unfold recentRunOk at hok
          rw [List.take_succ_cons, List.take_succ_cons] at hok
          have hko := (List.chain'_cons.mp hok).1
          omega
      · match m with
        | 0 => omega
        | m' + 1 =>
          have hok2 : recentRunOk (u :: rest2) m' := by
            unfold recentRunOk at hok ⊢
            rw [List.take_succ_cons] at hok
            exact hok.tail
          have hm2 : m' ≤ (u :: rest2).length := by
            simp only [List.length_cons] at hm ⊢
            omega
          have := ih m' hm2 hok2
          omega

/-- The stored longest streak equals the maximum over all prefixes of the
greedy run length. -/
theorem csLongest_eq_sup (ts : List Int) :
    csLongest ts =
      (((Finset.range ts.length).sup fun k => suffixRun ((ts.take (k+1)).reverse) : Nat) :
        Int) := by
  induction ts using List.reverseRecOn with
  | nil => simp [csLongest, processCookies]
  | append_singleton l t ih =>
    rw [csLongest_concat, ih, csCurrent_eq_suffixRun]
    have hlen : (l ++ [t]).length = l.length + 1 := by simp
    rw [hlen, Finset.range_succ, Finset.sup_insert]
    have htake : ∀ k ∈ Finset.range l.length,
        suffixRun (((l ++ [t]).take (k+1)).reverse) = suffixRun ((l.take (k+1)).reverse) := by
      intro k hk
      rw [List.take_append_of_le_length]
      simp only [Finset.mem_range] at hk
      omega
    rw [Finset.sup_congr rfl htake]
    have hfull : (l ++ [t]).take (l.length + 1) = l ++ [t] := by
      rw [← hlen, List.take_length]
    rw [hfull, Nat.cast_max]
    exact max_comm _ _

/-- C4: after the k-th cookie grant the stored current streak equals the
length of the maximal suffix of the first k timestamps whose consecutive
gaps are all within the 36 hour window (at least one, at most k, containing
the most recent grant, and maximal among all such runs), and the stored
longest streak is the maximum of those run lengths over the whole
sequence. -/
theorem cookie_streak_spec (ts : List Int) (hne : ts ≠ [])
    (_hsort : List.Chain' (· < ·) ts) :
    (∀ k, k < ts.length →
      ∃ m : Nat, csCurrent (ts.take (k+1)) = (m : Int) ∧ 1 ≤ m ∧ m ≤ k + 1 ∧
        recentRunOk ((ts.take (k+1)).reverse) m ∧
        (∀ m2 : Nat, m2 ≤ k + 1 → recentRunOk ((ts.take (k+1)).reverse) m2 → m2 ≤ m)) ∧
    (∃ M : Nat, csLongest ts = (M : Int) ∧
      (∀ k, k < ts.length → csCurrent (ts.take (k+1)) ≤ (M : Int)) ∧
      (∃ k, k < ts.length ∧ csCurrent (ts.take (k+1)) = (M : Int))) := by
  constructor
  · intro k hk
    have hlen : ((ts.take (k+1)).reverse).length = k + 1 := by
      rw [List.length_reverse, List.length_take]
      omega
    refine ⟨suffixRun ((ts.take (k+1)).reverse), csCurrent_eq_suffixRun _, ?_, ?_,
      suffixRun_ok _, ?_⟩
    · apply suffixRun_pos
      intro hcon
      rw [hcon] at hlen
      simp at hlen
    · calc suffixRun ((ts.take (k+1)).reverse) ≤ ((ts.take (k+1)).reverse).length :=
          suffixRun_le_length _
        _ = k + 1 := hlen
    · intro m2 hm2 hok
      exact le_suffixRun_of_ok _ m2 (by omega) hok
  · refine ⟨(Finset.range ts.length).sup (fun k => suffixRun ((ts.take (k+1)).reverse)),
      csLongest_eq_sup ts, ?_, ?_⟩
    · intro k hk
      rw [csCurrent_eq_suffixRun]
      have hle := @Finset.le_sup ℕ ℕ _ _ (Finset.range ts.length)
        (fun j => suffixRun ((ts.take (j+1)).reverse)) k (Finset.mem_range.mpr hk)
      exact_mod_cast hle
    · have hnon : (Finset.range ts.length).Nonempty := by
        rw [Finset.nonempty_range_iff]
        intro hcon
        exact hne (List.length_eq_zero.mp hcon)
      obtain ⟨k, hk, hek⟩ := Finset.exists_mem_eq_sup (Finset.range ts.length) hnon
        (fun k => suffixRun ((ts.take (k+1)).reverse))
      exact ⟨k, Finset.mem_range.mp hk, by rw [csCurrent_eq_suffixRun, hek]⟩

/-- C4 witness: the streak specification applied to the concrete reward log
0, 3600, 200000, 203600 (gaps 1 hour, over 54 hours, 1 hour), on which the
fold stores current streak 2 and longest streak 2 after the fourth grant. -/
theorem cookie_streak_spec_witness :
    (∃ m : Nat, csCurrent ([0, 3600, 200000, 203600].take (3+1)) = (m : Int) ∧
      1 ≤ m ∧ m ≤ 3 + 1 ∧
      recentRunOk (([0, 3600, 200000, 203600].take (3+1)).reverse) m ∧
      (∀ m2 : Nat, m2 ≤ 3 + 1 →
        recentRunOk (([0, 3600, 200000, 203600].take (3+1)).reverse) m2 → m2 ≤ m)) ∧
    csCurrent [0, 3600, 200000, 203600] = 2 ∧
    csLongest [0, 3600, 200000, 203600] = 2 := by
  refine ⟨(cookie_streak_spec [0, 3600, 200000, 203600] (by decide)
    (by norm_num [List.chain'_cons])).1 3 (by decide), by decide, by decide⟩
